import Mathlib

/-!
Verification of the YouTube live-chat bot (`src/app.py`) against its
natural-language specification.

The embedding models the bot's mutable state (`YouTubeBot.__init__`) as an
explicit `BotState` record, and each core operation as a pure function from
its external inputs (API results, the clock, the generation oracle) and the
current state to a result plus the successor state.  Time is `Int`
(Python float timestamps, only compared and subtracted).  Python string
operations are embedded as character-list operations on `String.data`
(`pyStrip` for `strip`, `pyStartswith` for `startswith`, `pyDrop` and
`pyTake` for slicing, `String.length` for `len`).
-/

/-- Python truthiness of an optional string (`if not self.chat_id`):
`None` and the empty string are falsy. -/
def strTruthy : Option String → Bool
  | none => false
  | some s => !(s == "")

/-- Python `str.strip()`: remove leading and trailing whitespace. -/
def pyStrip (s : String) : String :=
  ⟨((s.data.dropWhile Char.isWhitespace).reverse.dropWhile Char.isWhitespace).reverse⟩

/-- Python `str.startswith(pre)`. -/
def pyStartswith (s pre : String) : Bool :=
  pre.data.isPrefixOf s.data

/-- Python slicing `s[n:]`. -/
def pyDrop (s : String) (n : Nat) : String :=
  ⟨s.data.drop n⟩

/-- Python slicing `s[:n]`. -/
def pyTake (s : String) (n : Nat) : String :=
  ⟨s.data.take n⟩

/-- Mutable bot state from `YouTubeBot.__init__` (`src/app.py` lines 46-53):
`chat_id`, `is_live`, `last_messages` (message-id to seen-timestamp map,
modelled as an association list) and `last_poll_time`. -/
structure BotState where
  chat_id : Option String
  is_live : Bool
  last_messages : List (String × Int)
  last_poll_time : Int
deriving Repr, DecidableEq

/-- The state right after `YouTubeBot.__init__`: no chat id, not live,
no seen messages, poll reference 0. -/
def initState : BotState := ⟨none, false, [], 0⟩

/-- Outcome of the two YouTube API calls made by `check_live_status`:
an exception anywhere in the `try` block, an empty search result, an empty
video-details result, or a live broadcast with its active chat id. -/
inductive LiveApiResult
  | apiError
  | noStreams
  | noVideoItems
  | liveWith (newChatId : String)
deriving Repr, DecidableEq

/-- `YouTubeBot.check_live_status` (`src/app.py` lines 95-126).  Returns the
boolean result and the successor state.  On an exception or an empty search
it returns `False` with the state untouched; when a live broadcast resolves
to a chat id different from the held one, the method itself assigns
`self.chat_id` and resets `self.last_messages` to empty (lines 118-121). -/
def check_live_status (api : LiveApiResult) (s : BotState) : Bool × BotState :=
  match api with
  | .apiError => (false, s)
  | .noStreams => (false, s)
  | .noVideoItems => (false, s)
  | .liveWith new_chat_id =>
      if some new_chat_id != s.chat_id then
        (true, { s with chat_id := some new_chat_id, last_messages := [] })
      else
        (true, s)

/-- One status-update step of `YouTubeBot.run_scheduled_messages`
(`src/app.py` lines 258-272): every iteration of both the outer and the
inner loop ends with `self.is_live = self.check_live_status()`.  The other
work done while live (`process_chat_messages`, `schedule.run_pending`)
never touches `chat_id` or `is_live` (see `c1` conjunct three). -/
def schedStep (api : LiveApiResult) (s : BotState) : BotState :=
  let r := check_live_status api s
  { r.2 with is_live := r.1 }

/-- Result of the OpenRouter completion request inside
`generate_ai_response`: any raised exception, or a 2xx payload whose
message content is the given string. -/
inductive GenApiResult
  | failure
  | success (content : String)
deriving Repr, DecidableEq

/-- `MAX_RESPONSE_LENGTH = 100` (`src/app.py` line 29). -/
def MAX_RESPONSE_LENGTH : Nat := 100

/-- `POLLING_INTERVAL = 3` (`src/app.py` line 30). -/
def POLLING_INTERVAL : Int := 3

/-- `YouTubeBot.generate_ai_response` (`src/app.py` lines 128-167).  On any
exception it returns `None`.  On success it strips the content
(`.strip()`, line 153) and, when longer than `MAX_RESPONSE_LENGTH`,
truncates to the first `MAX_RESPONSE_LENGTH - 3` characters plus `"..."`
(lines 156-157).  The function keeps no state: there is no failure counter
anywhere in the source. -/
def generate_ai_response (api : GenApiResult) : Option String :=
  match api with
  | .failure => none
  | .success content =>
      let ai_message := pyStrip content
      if ai_message.length > MAX_RESPONSE_LENGTH then
        some (pyTake ai_message (MAX_RESPONSE_LENGTH - 3) ++ "...")
      else
        some ai_message

/-- One item of a `liveChatMessages().list` page: id, display message,
author display name and the author's `isChatOwner` flag. -/
structure ChatItem where
  id : String
  displayMessage : String
  authorDisplayName : String
  isChatOwner : Bool
deriving Repr, DecidableEq

/-- The command test of `process_chat_messages` line 207:
`message.startswith('!ai ') and len(message) > 4`. -/
def isAiCommand (m : String) : Bool :=
  pyStartswith m "!ai " && decide (m.length > 4)

/-- The per-item loop of `process_chat_messages` (`src/app.py` lines
191-215), threading the `last_messages` map.  Returns the updated map
(before the retention cleanup), the list of chat posts attempted via
`send_message`, and the list of dispatched AI requests as
(message id, author, prompt) triples.  A seen id is skipped; a new id is
recorded with the poll timestamp before the owner check and before any
dispatching; owner messages are then skipped; a command's prompt is the
text after the 4-character marker, stripped; a reply is posted only when
`generate_ai_response` returns a truthy (non-`None`, non-empty) string. -/
def processItems (gen : String → GenApiResult) (current_time : Int) :
    List ChatItem → List (String × Int) →
    List (String × Int) × List String × List (String × String × String)
  | [], seen => (seen, [], [])
  | item :: rest, seen =>
      if (seen.lookup item.id).isSome then
        processItems gen current_time rest seen
      else
        let seen1 := (item.id, current_time) :: seen
        if item.isChatOwner then
          processItems gen current_time rest seen1
        else if isAiCommand item.displayMessage then
          let prompt := pyStrip (pyDrop item.displayMessage 4)
          let entry := (item.id, item.authorDisplayName, prompt)
          let r := processItems gen current_time rest seen1
          match generate_ai_response (gen prompt) with
          | some resp =>
              if resp == "" then
                (r.1, r.2.1, entry :: r.2.2)
              else
                (r.1, ("!@" ++ item.authorDisplayName ++ " " ++ resp) :: r.2.1,
                  entry :: r.2.2)
          | none => (r.1, r.2.1, entry :: r.2.2)
        else
          processItems gen current_time rest seen1

/-- Observable outcome of a `process_chat_messages` call: the successor
state, the chat posts attempted, the dispatched (id, author, prompt)
triples, and whether the upstream `liveChatMessages().list` request was
issued at all. -/
structure PollOutcome where
  state : BotState
  sent : List String
  dispatched : List (String × String × String)
  upstreamCalled : Bool
deriving Repr, DecidableEq

/-- `YouTubeBot.process_chat_messages` (`src/app.py` lines 169-227).
Returns immediately when `chat_id` is falsy, or when less than
`POLLING_INTERVAL` has elapsed since `last_poll_time`.  Otherwise it sets
`last_poll_time := current_time` (line 179, before the upstream request)
and issues the list request; `api = none` models an exception from that
request (caught at line 226, after the reference time was already
updated and before any cleanup).  On a page it runs the item loop and then
evicts entries older than 300 from `last_messages` (lines 221-224). -/
def process_chat_messages (gen : String → GenApiResult) (current_time : Int)
    (api : Option (List ChatItem)) (s : BotState) : PollOutcome :=
  if !(strTruthy s.chat_id) then ⟨s, [], [], false⟩
  else if current_time - s.last_poll_time < POLLING_INTERVAL then ⟨s, [], [], false⟩
  else
    match api with
    | none => ⟨{ s with last_poll_time := current_time }, [], [], true⟩
    | some items =>
        let r := processItems gen current_time items s.last_messages
        let cleaned := r.1.filter (fun p => current_time - p.2 < 300)
        ⟨{ s with last_poll_time := current_time, last_messages := cleaned },
          r.2.1, r.2.2, true⟩

/-- The `run_scheduler` thread body (`src/app.py` lines 348-351): it reads
`bot.credentials` once; when a credential object is present it enters
`run_scheduled_messages`, otherwise it returns immediately without raising.
The result records whether any scheduling work is performed. -/
def run_scheduler (credentials : Option String) : Bool :=
  credentials.isSome

/-- The `__main__` block (`src/app.py` lines 353-357) starts the scheduler
thread exactly once at process start, so whether scheduling work ever
happens depends only on the credential timeline at index 0; a credential
restored later (e.g. through the `/auth` route) is never re-checked by the
already-terminated thread. -/
def schedulerEverRuns (credsAt : Nat → Option String) : Bool :=
  run_scheduler (credsAt 0)

/-- Derived characterization of the `last_messages` update performed by the
item loop (proved equal to the first component of `processItems` in
`processItems_fst`): every unseen id is recorded with the poll timestamp,
independently of ownership, command matching and generation outcomes. -/
def seenAfter (t : Int) : List ChatItem → List (String × Int) → List (String × Int)
  | [], seen => seen
  | item :: rest, seen =>
      if (seen.lookup item.id).isSome then seenAfter t rest seen
      else seenAfter t rest ((item.id, t) :: seen)

/-- Derived characterization of the dispatch decisions of the item loop
(proved equal to the dispatched component of `processItems` in
`processItems_disp`): an unseen, non-owner message matching the command
test is dispatched with its stripped payload, independently of the
generation outcome. -/
def dispAfter (t : Int) : List ChatItem → List (String × Int) → List (String × String × String)
  | [], _ => []
  | item :: rest, seen =>
      if (seen.lookup item.id).isSome then dispAfter t rest seen
      else
        if item.isChatOwner then dispAfter t rest ((item.id, t) :: seen)
        else if isAiCommand item.displayMessage then
          (item.id, item.authorDisplayName, pyStrip (pyDrop item.displayMessage 4)) ::
            dispAfter t rest ((item.id, t) :: seen)
        else dispAfter t rest ((item.id, t) :: seen)

/-- A 150-character generation result (150 copies of `a`), used to check
the truncation boundary from the specification. -/
def sample150 : String := String.mk (List.replicate 150 'a')

/-- A credential timeline with no credential at process start and a
credential restored afterwards. -/
def credsRestoredLater : Nat → Option String :=
  fun n => if n = 0 then none else some "tok"

/-! Helper lemmas. -/

theorem lookup_cons_of_ne {a k : String} {b : Int} {l : List (String × Int)}
    (h : ¬ a = k) : ((k, b) :: l).lookup a = l.lookup a := by
  have hb : (a == k) = false := by
    cases hh : a == k
    · rfl
    · exact absurd (eq_of_beq hh) h
  simp [List.lookup_cons, hb]

theorem processItems_fst (gen : String → GenApiResult) (t : Int) :
    ∀ (items : List ChatItem) (seen : List (String × Int)),
      (processItems gen t items seen).1 = seenAfter t items seen := by
  intro items
  induction items with
  | nil => intro seen; rfl
  | cons item rest ih =>
      intro seen
      simp only [processItems, seenAfter]
      cases hs : (seen.lookup item.id).isSome
      · simp only [Bool.false_eq_true, if_neg, reduceIte]
        cases ho : item.isChatOwner
        · simp only [Bool.false_eq_true, reduceIte]
          cases hc : isAiCommand item.displayMessage
          · simp only [Bool.false_eq_true, reduceIte]
            exact ih _
          · simp only [reduceIte]
            cases hg : generate_ai_response (gen (pyStrip (pyDrop item.displayMessage 4))) with
            | none => exact ih _
            | some resp =>
                cases hr : resp == "" <;> simp only [hr, Bool.false_eq_true, reduceIte] <;>
                  exact ih _
        · simp only [reduceIte]
          exact ih _
      · simp only [reduceIte]
        exact ih _

theorem eq_none_of_isSome_false {α : Type} {o : Option α} (h : o.isSome = false) :
    o = none := by
  cases o
  · rfl
  · simp at h

theorem lookup_none_cons {a k : String} {b : Int} {l : List (String × Int)}
    (h : ((k, b) :: l).lookup a = none) : l.lookup a = none ∧ ¬ a = k := by
  by_cases he : a = k
  · rw [he, List.lookup_cons_self] at h
    cases h
  · rw [lookup_cons_of_ne he] at h
    exact ⟨h, he⟩

theorem seenAfter_lookup_mono (t : Int) :
    ∀ (items : List ChatItem) (seen : List (String × Int)) (k : String) (v : Int),
      seen.lookup k = some v → (seenAfter t items seen).lookup k = some v := by
  intro items
  induction items with
  | nil => intro seen k v h; exact h
  | cons item rest ih =>
      intro seen k v h
      simp only [seenAfter]
      cases hs : (seen.lookup item.id).isSome
      · simp only [Bool.false_eq_true, reduceIte]
        apply ih
        have hne : ¬ k = item.id := by
          intro he
          rw [he] at h
          rw [h] at hs
          simp at hs
        rw [lookup_cons_of_ne hne]
        exact h
      · simp only [reduceIte]
        exact ih _ _ _ h

theorem seenAfter_lookup_of_mem (t : Int) :
    ∀ (items : List ChatItem) (seen : List (String × Int)) (item : ChatItem),
      item ∈ items → seen.lookup item.id = none →
      (seenAfter t items seen).lookup item.id = some t := by
  intro items
  induction items with
  | nil => intro seen item hmem; exact absurd hmem (List.not_mem_nil _)
  | cons i rest ih =>
      intro seen item hmem hnone
      simp only [seenAfter]
      cases hs : (seen.lookup i.id).isSome
      · simp only [Bool.false_eq_true, reduceIte]
        by_cases hid : item.id = i.id
        · apply seenAfter_lookup_mono
          rw [hid]
          exact List.lookup_cons_self
        · rcases List.mem_cons.mp hmem with he | hm
          · rw [he] at hid
            exact absurd rfl hid
          · apply ih _ _ hm
            rw [lookup_cons_of_ne hid]
            exact hnone
      · simp only [reduceIte]
        rcases List.mem_cons.mp hmem with he | hm
        · rw [he] at hnone
          rw [hnone] at hs
          cases hs
        · exact ih _ _ hm hnone

theorem processItems_disp (gen : String → GenApiResult) (t : Int) :
    ∀ (items : List ChatItem) (seen : List (String × Int)),
      (processItems gen t items seen).2.2 = dispAfter t items seen := by
  intro items
  induction items with
  | nil => intro seen; rfl
  | cons item rest ih =>
      intro seen
      simp only [processItems, dispAfter]
      cases hs : (seen.lookup item.id).isSome
      · simp only [Bool.false_eq_true, reduceIte]
        cases ho : item.isChatOwner
        · simp only [Bool.false_eq_true, reduceIte]
          cases hc : isAiCommand item.displayMessage
          · simp only [Bool.false_eq_true, reduceIte]
            exact ih _
          · simp only [reduceIte]
            cases hg : generate_ai_response (gen (pyStrip (pyDrop item.displayMessage 4))) with
            | none => simp only [List.cons.injEq, true_and]; exact ih _
            | some resp =>
                cases hr : resp == "" <;> simp only [hr, Bool.false_eq_true, reduceIte] <;>
                  simp only [List.cons.injEq, true_and] <;> exact ih _
        · simp only [reduceIte]
          exact ih _
      · simp only [reduceIte]
        exact ih _

theorem dispAfter_fresh (t : Int) :
    ∀ (items : List ChatItem) (seen : List (String × Int)),
      (∀ d ∈ dispAfter t items seen, seen.lookup d.1 = none) ∧
      ((dispAfter t items seen).map (fun d => d.1)).Nodup := by
  intro items
  induction items with
  | nil => intro seen; simp [dispAfter]
  | cons item rest ih =>
      intro seen
      simp only [dispAfter]
      cases hs : (seen.lookup item.id).isSome
      · simp only [Bool.false_eq_true, reduceIte]
        have hnone : seen.lookup item.id = none := eq_none_of_isSome_false hs
        have weaken : ∀ d, ((item.id, t) :: seen).lookup d = none → seen.lookup d = none :=
          fun d hd => (lookup_none_cons hd).1
        cases ho : item.isChatOwner
        · simp only [Bool.false_eq_true, reduceIte]
          cases hc : isAiCommand item.displayMessage
          · simp only [Bool.false_eq_true, reduceIte]
            exact ⟨fun d hd => weaken _ ((ih _).1 d hd), (ih _).2⟩
          · simp only [reduceIte]
            constructor
            · intro d hd
              rcases List.mem_cons.mp hd with he | hm
              · rw [he]
                exact hnone
              · exact weaken _ ((ih _).1 d hm)
            · simp only [List.map_cons, List.nodup_cons]
              constructor
              · intro hmem
                rcases List.mem_map.mp hmem with ⟨d, hd, hd1⟩
                have := (ih ((item.id, t) :: seen)).1 d hd
                rw [hd1] at this
                rw [List.lookup_cons_self] at this
                cases this
              · exact (ih _).2
        · simp only [reduceIte]
          exact ⟨fun d hd => weaken _ ((ih _).1 d hd), (ih _).2⟩
      · simp only [reduceIte]
        exact ih _

theorem processItems_sent_nil (gen : String → GenApiResult) (t : Int)
    (hfail : ∀ p, gen p = GenApiResult.failure) :
    ∀ (items : List ChatItem) (seen : List (String × Int)),
      (processItems gen t items seen).2.1 = [] := by
  intro items
  induction items with
  | nil => intro seen; rfl
  | cons item rest ih =>
      intro seen
      simp only [processItems]
      cases hs : (seen.lookup item.id).isSome
      · simp only [Bool.false_eq_true, reduceIte]
        cases ho : item.isChatOwner
        · simp only [Bool.false_eq_true, reduceIte]
          cases hc : isAiCommand item.displayMessage
          · simp only [Bool.false_eq_true, reduceIte]
            exact ih _
          · simp only [reduceIte, hfail]
            exact ih _
        · simp only [reduceIte]
          exact ih _
      · simp only [reduceIte]
        exact ih _

theorem lookup_filter_val (f : Int → Bool) :
    ∀ (l : List (String × Int)) (k : String) (v : Int),
      l.lookup k = some v → f v = true →
      (l.filter fun p => f p.2).lookup k = some v := by
  intro l
  induction l with
  | nil => intro k v h; cases h
  | cons p rest ih =>
      intro k v h hf
      obtain ⟨a, b⟩ := p
      by_cases he : k = a
      · subst he
        rw [List.lookup_cons_self] at h
        injection h with hbv
        subst hbv
        simp only [List.filter_cons, hf, reduceIte]
        exact List.lookup_cons_self
      · rw [lookup_cons_of_ne he] at h
        simp only [List.filter_cons]
        cases hcond : f b
        · simp only [Bool.false_eq_true, reduceIte]
          exact ih k v h hf
        · simp only [reduceIte]
          rw [lookup_cons_of_ne he]
          exact ih k v h hf

theorem pyDrop_eq_empty_iff (s : String) (n : Nat) :
    pyDrop s n = "" ↔ s.length ≤ n := by
  rw [String.ext_iff]
  show s.data.drop n = ("" : String).data ↔ _
  have hdata : ("" : String).data = [] := rfl
  rw [hdata, List.drop_eq_nil_iff, String.length_data]

theorem length_mk (l : List Char) : (String.mk l).length = l.length := rfl

theorem pyTake_length (s : String) (n : Nat) : (pyTake s n).length = min n s.length := by
  show (String.mk (s.data.take n)).length = _
  rw [length_mk, List.length_take, String.length_data]

theorem length_append_str (s t : String) : (s ++ t).length = s.length + t.length := by
  rw [← String.length_data, String.data_append, List.length_append,
    String.length_data, String.length_data]

theorem process_frame (gen : String → GenApiResult) (t : Int)
    (page : Option (List ChatItem)) (s : BotState) :
    (process_chat_messages gen t page s).state.chat_id = s.chat_id ∧
    (process_chat_messages gen t page s).state.is_live = s.is_live := by
  simp only [process_chat_messages]
  cases h1 : !(strTruthy s.chat_id)
  · simp only [Bool.false_eq_true, reduceIte]
    by_cases h2 : t - s.last_poll_time < POLLING_INTERVAL
    · rw [if_pos h2]
      exact ⟨rfl, rfl⟩
    · rw [if_neg h2]
      cases page
      · exact ⟨rfl, rfl⟩
      · exact ⟨rfl, rfl⟩
  · simp

theorem process_throttled (gen : String → GenApiResult) (t : Int)
    (page : Option (List ChatItem)) (s : BotState)
    (hchat : strTruthy s.chat_id = true)
    (hsoon : t - s.last_poll_time < POLLING_INTERVAL) :
    process_chat_messages gen t page s = ⟨s, [], [], false⟩ := by
  simp only [process_chat_messages, hchat, Bool.not_true, Bool.false_eq_true, reduceIte]
  rw [if_pos hsoon]

theorem process_attempt_failed (gen : String → GenApiResult) (t : Int) (s : BotState)
    (hchat : strTruthy s.chat_id = true)
    (hlate : POLLING_INTERVAL ≤ t - s.last_poll_time) :
    process_chat_messages gen t none s =
      ⟨{ s with last_poll_time := t }, [], [], true⟩ := by
  simp only [process_chat_messages, hchat, Bool.not_true, Bool.false_eq_true, reduceIte]
  rw [if_neg (not_lt.mpr hlate)]

theorem process_page (gen : String → GenApiResult) (t : Int) (items : List ChatItem)
    (s : BotState)
    (hchat : strTruthy s.chat_id = true)
    (hlate : POLLING_INTERVAL ≤ t - s.last_poll_time) :
    process_chat_messages gen t (some items) s =
      ⟨{ s with
          last_poll_time := t
          last_messages := (processItems gen t items s.last_messages).1.filter
            (fun p => t - p.2 < 300) },
        (processItems gen t items s.last_messages).2.1,
        (processItems gen t items s.last_messages).2.2, true⟩ := by
  simp only [process_chat_messages, hchat, Bool.not_true, Bool.false_eq_true, reduceIte]
  rw [if_neg (not_lt.mpr hlate)]

theorem isAiCommand_iff (m : String) :
    isAiCommand m = true ↔
      (pyStartswith m "!ai " = true ∧ ¬ pyDrop m 4 = "") := by
  simp only [isAiCommand, Bool.and_eq_true, decide_eq_true_eq, pyDrop_eq_empty_iff, not_le]

theorem strTruthy_some_ne {c : String} (h : ¬ c = "") : strTruthy (some c) = true := by
  simp [strTruthy, h]

/-! Claim theorems. -/

/-- C1 (counterexample): the claimed Session invariant — chat_id non-empty
iff is_live, with chat-session state cleared on the transition to OFFLINE —
is false.  Concretely: a scheduler cycle sees a live broadcast with chat id
"A", the next cycle sees no live stream; the loop sets `is_live := false`
but `check_live_status` never clears `chat_id`, so after the transition to
OFFLINE the held chat id is still the non-empty "A" and the biconditional
fails. -/
theorem c1_counterexample :
    (schedStep .noStreams (schedStep (.liveWith "A") initState)).is_live = false ∧
    (schedStep .noStreams (schedStep (.liveWith "A") initState)).chat_id = some "A" ∧
    ¬ strTruthy (schedStep .noStreams (schedStep (.liveWith "A") initState)).chat_id =
        (schedStep .noStreams (schedStep (.liveWith "A") initState)).is_live := by
  decide

/-- C1 (amended): in every polling cycle of the scheduler loop, if the
cycle ends live then the held chat_id is the (non-empty) id reported by the
monitor, so `is_live = true` implies `chat_id` non-empty; but on a not-live
result the loop only sets `is_live := false` and leaves `chat_id` (and the
seen-message map) unchanged — the chat-session state is NOT cleared on the
transition to OFFLINE, so the converse direction of the claimed invariant
does not hold.  The chat-polling work performed while live never modifies
`chat_id` or `is_live`. -/
theorem c1 (api : LiveApiResult) (s : BotState) (gen : String → GenApiResult)
    (t : Int) (page : Option (List ChatItem))
    (hapi : ∀ c, api = LiveApiResult.liveWith c → ¬ c = "") :
    ((schedStep api s).is_live = true → strTruthy (schedStep api s).chat_id = true) ∧
    ((schedStep api s).is_live = false →
      (schedStep api s).chat_id = s.chat_id ∧
      (schedStep api s).last_messages = s.last_messages) ∧
    ((process_chat_messages gen t page s).state.chat_id = s.chat_id ∧
      (process_chat_messages gen t page s).state.is_live = s.is_live) := by
  refine ⟨?_, ?_, process_frame gen t page s⟩
  · cases api with
    | apiError => intro h; cases h
    | noStreams => intro h; cases h
    | noVideoItems => intro h; cases h
    | liveWith c =>
        intro _
        have hc : ¬ c = "" := hapi c rfl
        by_cases heq : s.chat_id = some c
        · simp [schedStep, check_live_status, heq, strTruthy, hc]
        · have hne : (some c != s.chat_id) = true := by
            rw [bne_iff_ne]
            exact fun h => heq h.symm
          simp [schedStep, check_live_status, hne, strTruthy, hc]
  · cases api with
    | apiError => intro _; exact ⟨rfl, rfl⟩
    | noStreams => intro _; exact ⟨rfl, rfl⟩
    | noVideoItems => intro _; exact ⟨rfl, rfl⟩
    | liveWith c =>
        intro h
        exfalso
        cases hb : (some c != s.chat_id)
        · simp [schedStep, check_live_status, hb] at h
        · simp [schedStep, check_live_status, hb] at h

/-- C1 (witness): the amended theorem applied at a concrete live cycle. -/
theorem c1_witness :
    strTruthy (schedStep (.liveWith "A") initState).chat_id = true :=
  (c1 (.liveWith "A") initState (fun _ => GenApiResult.failure) 0 none
      (by intro c h; cases h; decide)).1 (by decide)

/-- C4 (counterexample): `check_live_status` is not a pure query.  With
held chat id "A" and one seen message, a poll observing a live broadcast
with chat id "B" mutates the bot state inside the call itself: it sets
`chat_id := "B"` and clears `last_messages` — contradicting the claim that
every call leaves `chat_id` and `last_messages` unchanged and that the
clearing is the caller's responsibility. -/
theorem c4_counterexample :
    ¬ (check_live_status (.liveWith "B") ⟨some "A", true, [("m1", 0)], 0⟩).2 =
        ⟨some "A", true, [("m1", 0)], 0⟩ ∧
    (check_live_status (.liveWith "B") ⟨some "A", true, [("m1", 0)], 0⟩).2.chat_id =
        some "B" ∧
    (check_live_status (.liveWith "B") ⟨some "A", true, [("m1", 0)], 0⟩).2.last_messages =
        [] := by
  decide

/-- C4 (amended): `check_live_status` leaves the bot state unchanged in
every case except one — when it observes a live broadcast whose chat id
differs from the currently held one, the method itself (not the caller)
adopts the new chat id and clears the seen-message set; on an API error,
an empty search result, an empty video-details result, or a live broadcast
with the already-held chat id, the state is untouched. -/
theorem c4 (s : BotState) (c cHeld : String)
    (hdiff : ¬ s.chat_id = some c) (hsame : s.chat_id = some cHeld) :
    (check_live_status (.liveWith c) s).2 =
      { s with chat_id := some c, last_messages := [] } ∧
    (check_live_status (.liveWith cHeld) s).2 = s ∧
    (check_live_status .apiError s).2 = s ∧
    (check_live_status .noStreams s).2 = s ∧
    (check_live_status .noVideoItems s).2 = s := by
  refine ⟨?_, ?_, rfl, rfl, rfl⟩
  · have hne : (some c != s.chat_id) = true := by
      rw [bne_iff_ne]
      exact fun h => hdiff h.symm
    simp [check_live_status, hne]
  · have heqb : (some cHeld != s.chat_id) = false :=
      bne_eq_false_iff_eq.mpr hsame.symm
    simp [check_live_status, heqb]

/-- C4 (witness): the amended theorem applied at held chat id "A", new
chat id "B" and a one-entry seen map. -/
theorem c4_witness :
    (check_live_status (.liveWith "B") ⟨some "A", true, [("m1", 0)], 5⟩).2 =
      { (⟨some "A", true, [("m1", 0)], 5⟩ : BotState) with
          chat_id := some "B"
          last_messages := [] } :=
  (c4 ⟨some "A", true, [("m1", 0)], 5⟩ "B" "A" (by decide) rfl).1

/-- C5: when the monitor observes a live broadcast whose chat id differs
from the currently held one, the seen-message set is reset to empty, so a
message id previously recorded under the old session is no longer filtered
(its lookup yields none) under the new session. -/
theorem c5 (s : BotState) (c m : String) (tstamp : Int)
    (hdiff : ¬ s.chat_id = some c)
    (_hseen : s.last_messages.lookup m = some tstamp) :
    (check_live_status (.liveWith c) s).1 = true ∧
    (check_live_status (.liveWith c) s).2.chat_id = some c ∧
    (check_live_status (.liveWith c) s).2.last_messages = [] ∧
    (check_live_status (.liveWith c) s).2.last_messages.lookup m = none := by
  have hne : (some c != s.chat_id) = true := by
    rw [bne_iff_ne]
    exact fun h => hdiff h.symm
  simp [check_live_status, hne]

/-- C5 (witness): the session-reset theorem applied at held chat id "A",
new chat id "B", and a message "m1" seen at time 7 under the old session. -/
theorem c5_witness :
    (check_live_status (.liveWith "B") ⟨some "A", true, [("m1", 7)], 0⟩).2.last_messages.lookup
        "m1" = none :=
  (c5 ⟨some "A", true, [("m1", 7)], 0⟩ "B" "m1" 7 (by decide) rfl).2.2.2

/-- C3 (counterexample): there is no AI-failure counter in the code.  A
poll page with three AI commands whose generations all fail dispatches all
three requests, yet posts nothing at all to chat — not the single
degraded-service message the claim requires after three consecutive
failures. -/
theorem c3_counterexample :
    (process_chat_messages (fun _ => GenApiResult.failure) 10
        (some [⟨"m1", "!ai one", "Ann", false⟩, ⟨"m2", "!ai two", "Ben", false⟩,
          ⟨"m3", "!ai three", "Cal", false⟩])
        ⟨some "chat", true, [], 0⟩).dispatched.length = 3 ∧
    ¬ (process_chat_messages (fun _ => GenApiResult.failure) 10
        (some [⟨"m1", "!ai one", "Ann", false⟩, ⟨"m2", "!ai two", "Ben", false⟩,
          ⟨"m3", "!ai three", "Cal", false⟩])
        ⟨some "chat", true, [], 0⟩).sent.length = 1 := by
  decide

/-- C3 (amended): the code maintains no AI-failure counter at all.
`generate_ai_response` returns no response on a failed generation and keeps
no state, and when every generation fails — in particular after three
consecutive failures — no message of any kind (degraded-service or
otherwise) is posted to chat. -/
theorem c3 (gen : String → GenApiResult) (t : Int)
    (page : Option (List ChatItem)) (s : BotState)
    (hfail : ∀ p, gen p = GenApiResult.failure) :
    generate_ai_response GenApiResult.failure = none ∧
    (process_chat_messages gen t page s).sent = [] := by
  refine ⟨rfl, ?_⟩
  simp only [process_chat_messages]
  cases h1 : !(strTruthy s.chat_id)
  · simp only [Bool.false_eq_true, reduceIte]
    by_cases h2 : t - s.last_poll_time < POLLING_INTERVAL
    · rw [if_pos h2]
    · rw [if_neg h2]
      cases page with
      | none => rfl
      | some items =>
          exact processItems_sent_nil gen t hfail items s.last_messages
  · simp only [reduceIte]

/-- C3 (witness): the amended theorem applied to the all-failures oracle on
the three-command page. -/
theorem c3_witness :
    generate_ai_response GenApiResult.failure = none ∧
    (process_chat_messages (fun _ => GenApiResult.failure) 10
        (some [⟨"m1", "!ai one", "Ann", false⟩, ⟨"m2", "!ai two", "Ben", false⟩,
          ⟨"m3", "!ai three", "Cal", false⟩])
        ⟨some "chat", true, [], 0⟩).sent = [] :=
  c3 (fun _ => GenApiResult.failure) 10
    (some [⟨"m1", "!ai one", "Ann", false⟩, ⟨"m2", "!ai two", "Ben", false⟩,
      ⟨"m3", "!ai three", "Cal", false⟩])
    ⟨some "chat", true, [], 0⟩ (fun _ => rfl)

/-- C6 (counterexample): the throttle's reference time is not the time of
the last successful poll.  A successful poll runs at time 0; at time 4 a
poll attempt passes the throttle but its upstream list request fails, and
the reference time is nevertheless updated to 4 (it is set before the
upstream call); a call at time 6 — six units after the last successful
poll, so by the claim unthrottled — is throttled: it performs no upstream
request and returns the empty outcome. -/
theorem c6_counterexample :
    (process_chat_messages (fun _ => GenApiResult.success "ok") 0 (some [])
        ⟨some "C", true, [], -100⟩).upstreamCalled = true ∧
    (process_chat_messages (fun _ => GenApiResult.success "ok") 0 (some [])
        ⟨some "C", true, [], -100⟩).state.last_poll_time = 0 ∧
    (process_chat_messages (fun _ => GenApiResult.success "ok") 4 none
        (process_chat_messages (fun _ => GenApiResult.success "ok") 0 (some [])
          ⟨some "C", true, [], -100⟩).state).upstreamCalled = true ∧
    (process_chat_messages (fun _ => GenApiResult.success "ok") 4 none
        (process_chat_messages (fun _ => GenApiResult.success "ok") 0 (some [])
          ⟨some "C", true, [], -100⟩).state).state.last_poll_time = 4 ∧
    (process_chat_messages (fun _ => GenApiResult.success "ok") 6
        (some [⟨"m1", "!ai q", "Ann", false⟩])
        (process_chat_messages (fun _ => GenApiResult.success "ok") 4 none
          (process_chat_messages (fun _ => GenApiResult.success "ok") 0 (some [])
            ⟨some "C", true, [], -100⟩).state).state).upstreamCalled = false ∧
    (process_chat_messages (fun _ => GenApiResult.success "ok") 6
        (some [⟨"m1", "!ai q", "Ann", false⟩])
        (process_chat_messages (fun _ => GenApiResult.success "ok") 4 none
          (process_chat_messages (fun _ => GenApiResult.success "ok") 0 (some [])
            ⟨some "C", true, [], -100⟩).state).state).dispatched = [] := by
  decide

/-- C6 (amended): calls arriving sooner than the Polling Interval (3
time-units) since the last poll attempt that passed the throttle return
the empty outcome with no upstream list request and leave the state
unchanged; the throttle's reference time is the time of the last
non-throttled poll attempt — it is updated before the upstream request is
issued, hence also when that request fails — not the time of the last
successful poll. -/
theorem c6 (gen : String → GenApiResult) (api : Option (List ChatItem))
    (s : BotState) (t t' : Int)
    (hchat : strTruthy s.chat_id = true)
    (hlate : POLLING_INTERVAL ≤ t - s.last_poll_time)
    (hsoon : t' - t < POLLING_INTERVAL) :
    (process_chat_messages gen t none s).upstreamCalled = true ∧
    (process_chat_messages gen t none s).state.last_poll_time = t ∧
    process_chat_messages gen t' api (process_chat_messages gen t none s).state =
      ⟨(process_chat_messages gen t none s).state, [], [], false⟩ := by
  rw [process_attempt_failed gen t s hchat hlate]
  refine ⟨rfl, rfl, ?_⟩
  exact process_throttled gen t' api _ hchat hsoon

/-- C6 (witness): the amended theorem applied at a failed attempt at time 5
after a reference time 0, followed by a call at time 7. -/
theorem c6_witness :
    process_chat_messages (fun _ => GenApiResult.success "ok") 7
        (some [⟨"m1", "!ai q", "Ann", false⟩])
        (process_chat_messages (fun _ => GenApiResult.success "ok") 5 none
          ⟨some "C", true, [], 0⟩).state =
      ⟨(process_chat_messages (fun _ => GenApiResult.success "ok") 5 none
          ⟨some "C", true, [], 0⟩).state, [], [], false⟩ :=
  (c6 (fun _ => GenApiResult.success "ok") (some [⟨"m1", "!ai q", "Ann", false⟩])
      ⟨some "C", true, [], 0⟩ 5 7 (by decide) (by decide) (by decide)).2.2

/-- C7 (counterexample): internal whitespace runs are not collapsed.  A
successful generation returning "a  b" (two internal spaces, no
leading/trailing whitespace) is returned verbatim, not as the
claimed collapsed "a b". -/
theorem c7_counterexample :
    generate_ai_response (GenApiResult.success "a  b") = some "a  b" ∧
    ¬ generate_ai_response (GenApiResult.success "a  b") = some "a b" := by
  decide

/-- C7 (amended): a successful text-generation result is stripped of
leading and trailing whitespace only (internal whitespace runs are left
untouched, not collapsed) and truncated to at most 100 characters: a
stripped result of at most 100 characters is returned unchanged, and a
longer one is cut to its first 97 characters followed by the
three-character marker "...", for a total length of exactly 100 — in
particular a 150-character result becomes 97 content characters plus
"...". -/
theorem c7 (content : String) :
    ((pyStrip content).length ≤ 100 →
      generate_ai_response (GenApiResult.success content) = some (pyStrip content)) ∧
    (100 < (pyStrip content).length →
      generate_ai_response (GenApiResult.success content) =
        some (pyTake (pyStrip content) 97 ++ "...") ∧
      (pyTake (pyStrip content) 97 ++ "...").length = 100) := by
  constructor
  · intro h
    simp only [generate_ai_response, MAX_RESPONSE_LENGTH, gt_iff_lt]
    rw [if_neg (not_lt.mpr h)]
  · intro h
    constructor
    · simp only [generate_ai_response, MAX_RESPONSE_LENGTH, gt_iff_lt]
      rw [if_pos h]
    · rw [length_append_str, pyTake_length]
      have h97 : min 97 (pyStrip content).length = 97 := by
        have h' : 100 < (pyStrip content).length := h
        omega
      rw [h97]
      rfl

set_option maxRecDepth 8000 in
/-- C7 (witness): the amended theorem applied at the 150-character
generation result. -/
theorem c7_witness :
    generate_ai_response (GenApiResult.success sample150) =
      some (pyTake (pyStrip sample150) 97 ++ "...") ∧
    (pyTake (pyStrip sample150) 97 ++ "...").length = 100 :=
  (c7 sample150).2 (by decide)

/-- C8: a chat message yields a dispatched command iff its author is not
flagged as the channel owner and its text begins with the prefix "!ai "
followed by a non-empty remainder, and the command payload is the text
after the prefix stripped of surrounding whitespace; an owner-authored
message is never dispatched regardless of prefix match (the condition
below is false whenever `isChatOwner` is true). -/
theorem c8 (item : ChatItem) (seen : List (String × Int))
    (gen : String → GenApiResult) (t : Int)
    (hnew : seen.lookup item.id = none) :
    (processItems gen t [item] seen).2.2 =
      if item.isChatOwner = false ∧ pyStartswith item.displayMessage "!ai " = true ∧
          ¬ pyDrop item.displayMessage 4 = ""
      then [(item.id, item.authorDisplayName, pyStrip (pyDrop item.displayMessage 4))]
      else [] := by
  rw [processItems_disp]
  have hns : (seen.lookup item.id).isSome = false := by
    rw [hnew]
    rfl
  cases ho : item.isChatOwner
  · cases hc : isAiCommand item.displayMessage
    · rw [if_neg]
      · simp only [dispAfter, hns, ho, hc, Bool.false_eq_true, reduceIte]
      · rintro ⟨h1, h2, h3⟩
        have hcmd := (isAiCommand_iff item.displayMessage).mpr ⟨h2, h3⟩
        rw [hc] at hcmd
        cases hcmd
    · rw [if_pos ⟨rfl, (isAiCommand_iff item.displayMessage).mp hc⟩]
      simp only [dispAfter, hns, ho, hc, Bool.false_eq_true, reduceIte]
  · rw [if_neg]
    · simp only [dispAfter, hns, ho, Bool.false_eq_true, reduceIte]
    · rintro ⟨h1, h2, h3⟩
      cases h1

/-- C8 (witness): the dispatch characterization applied to a concrete
non-owner message "!ai  hello " with id "m7" from "Bob". -/
theorem c8_witness :
    (processItems (fun _ => GenApiResult.failure) 0
        [⟨"m7", "!ai  hello ", "Bob", false⟩] []).2.2 =
      if (false : Bool) = false ∧ pyStartswith "!ai  hello " "!ai " = true ∧
          ¬ pyDrop "!ai  hello " 4 = ""
      then [("m7", "Bob", pyStrip (pyDrop "!ai  hello " 4))]
      else [] :=
  c8 ⟨"m7", "!ai  hello ", "Bob", false⟩ [] (fun _ => GenApiResult.failure) 0 rfl

/-- C9 (counterexample): authentication failure does not merely pause the
scheduler until credentials return.  With no credential at process start,
the scheduler thread performs no work and exits; a credential restored at
the next instant is never re-checked, so scheduling does not proceed again
as the claim requires. -/
theorem c9_counterexample :
    schedulerEverRuns credsRestoredLater = false ∧
    credsRestoredLater 1 = some "tok" := by
  exact ⟨rfl, rfl⟩

/-- C9 (amended): when no usable credential exists at scheduler startup,
`run_scheduler` performs no scheduling work and returns without raising;
the credential check happens exactly once, at startup, so no scheduling
work ever happens in that process regardless of later credential
restoration — the loop does not resume, a restart is required. -/
theorem c9 (credsAt : Nat → Option String) (hstart : credsAt 0 = none) :
    run_scheduler (credsAt 0) = false ∧
    schedulerEverRuns credsAt = false := by
  simp only [schedulerEverRuns, run_scheduler, hstart]
  exact ⟨rfl, rfl⟩

/-- C9 (witness): the amended theorem applied to the timeline with the
credential restored after startup. -/
theorem c9_witness :
    run_scheduler (credsRestoredLater 0) = false ∧
    schedulerEverRuns credsRestoredLater = false :=
  c9 credsRestoredLater rfl

/-- C10: when the text-generation call succeeds but the returned content
strips to the empty string, `generate_ai_response` returns the empty
string — the success path, not `None`, and no failure is recorded
anywhere — and `process_chat_messages` posts no chat reply for that
command because the empty (falsy) response suppresses the send, while the
command is still dispatched. -/
theorem c10 (c : String) (item : ChatItem) (gen : String → GenApiResult)
    (t : Int) (s : BotState)
    (hc : pyStrip c = "")
    (hgen : gen (pyStrip (pyDrop item.displayMessage 4)) = GenApiResult.success c)
    (howner : item.isChatOwner = false)
    (hcmd : isAiCommand item.displayMessage = true)
    (hnew : s.last_messages.lookup item.id = none)
    (hchat : strTruthy s.chat_id = true)
    (hlate : POLLING_INTERVAL ≤ t - s.last_poll_time) :
    generate_ai_response (GenApiResult.success c) = some "" ∧
    (process_chat_messages gen t (some [item]) s).sent = [] ∧
    (process_chat_messages gen t (some [item]) s).dispatched =
      [(item.id, item.authorDisplayName, pyStrip (pyDrop item.displayMessage 4))] := by
  have hgenc : generate_ai_response (GenApiResult.success c) = some "" := by
    simp only [generate_ai_response, hc]
    rfl
  have hns : (s.last_messages.lookup item.id).isSome = false := by
    rw [hnew]
    rfl
  have hpi : processItems gen t [item] s.last_messages =
      ((item.id, t) :: s.last_messages, [],
        [(item.id, item.authorDisplayName, pyStrip (pyDrop item.displayMessage 4))]) := by
    simp only [processItems, hns, howner, hcmd, hgen, hgenc, Bool.false_eq_true, reduceIte]
    rfl
  refine ⟨hgenc, ?_, ?_⟩
  · rw [process_page gen t [item] s hchat hlate, hpi]
  · rw [process_page gen t [item] s hchat hlate, hpi]

/-- C10 (witness): the empty-stripped-success theorem applied to the
command "!ai hi" whose generation returns two spaces. -/
theorem c10_witness :
    generate_ai_response (GenApiResult.success "  ") = some "" ∧
    (process_chat_messages (fun _ => GenApiResult.success "  ") 10
        (some [⟨"m9", "!ai hi", "Bob", false⟩]) ⟨some "C", true, [], 0⟩).sent = [] ∧
    (process_chat_messages (fun _ => GenApiResult.success "  ") 10
        (some [⟨"m9", "!ai hi", "Bob", false⟩]) ⟨some "C", true, [], 0⟩).dispatched =
      [("m9", "Bob", pyStrip (pyDrop "!ai hi" 4))] :=
  c10 "  " ⟨"m9", "!ai hi", "Bob", false⟩ (fun _ => GenApiResult.success "  ") 10
    ⟨some "C", true, [], 0⟩ (by decide) rfl rfl (by decide) rfl (by decide) (by decide)

/-- C2: within a single chat poll over a page of messages, every message
id that was not already seen is recorded in `last_messages` with the
poll's current timestamp (conjuncts one and five, the latter through the
full `process_chat_messages` call including the retention cleanup); the
recording and the dispatch decisions are identical for any two generation
oracles, i.e. a message is recorded before and independently of any
downstream dispatching or responding (conjuncts two and three); and the
dispatched message ids of a page are pairwise distinct, so an id occurring
twice in the same page is dispatched at most once (conjunct four). -/
theorem c2 (gen gen2 : String → GenApiResult) (t : Int) (items : List ChatItem)
    (item : ChatItem) (s : BotState)
    (hmem : item ∈ items) (hnew : s.last_messages.lookup item.id = none)
    (hchat : strTruthy s.chat_id = true)
    (hlate : POLLING_INTERVAL ≤ t - s.last_poll_time) :
    ((processItems gen t items s.last_messages).1.lookup item.id = some t) ∧
    ((processItems gen t items s.last_messages).1 =
      (processItems gen2 t items s.last_messages).1) ∧
    ((processItems gen t items s.last_messages).2.2 =
      (processItems gen2 t items s.last_messages).2.2) ∧
    (((processItems gen t items s.last_messages).2.2.map (fun d => d.1)).Nodup) ∧
    ((process_chat_messages gen t (some items) s).state.last_messages.lookup item.id =
      some t) := by
  have h1 : (processItems gen t items s.last_messages).1.lookup item.id = some t := by
    rw [processItems_fst]
    exact seenAfter_lookup_of_mem t items s.last_messages item hmem hnew
  refine ⟨h1, ?_, ?_, ?_, ?_⟩
  · rw [processItems_fst, processItems_fst]
  · rw [processItems_disp, processItems_disp]
  · rw [processItems_disp]
    exact (dispAfter_fresh t items s.last_messages).2
  · rw [process_page gen t items s hchat hlate]
    apply lookup_filter_val (fun v => decide (t - v < 300)) _ _ _ h1
    simp only [decide_eq_true_eq]
    omega

/-- C2 (witness): the dedup theorem applied to a page containing the same
message id "m1" twice; the id is recorded with the poll timestamp 10. -/
theorem c2_witness :
    (process_chat_messages (fun _ => GenApiResult.failure) 10
        (some [⟨"m1", "!ai q", "Ann", false⟩, ⟨"m1", "!ai q", "Ann", false⟩])
        ⟨some "C", true, [], 0⟩).state.last_messages.lookup "m1" = some 10 :=
  (c2 (fun _ => GenApiResult.failure) (fun _ => GenApiResult.success "ok") 10
      [⟨"m1", "!ai q", "Ann", false⟩, ⟨"m1", "!ai q", "Ann", false⟩]
      ⟨"m1", "!ai q", "Ann", false⟩ ⟨some "C", true, [], 0⟩
      (by decide) rfl (by decide) (by decide)).2.2.2.2
